import Mathlib

/-!
# Verification of the cypress-vibe-check LLM evaluation pipeline

A shallow embedding of the core of the `cypress-vibe-check` repository:

* the providers' response-parsing stage
  (`src/providers/openai-provider.ts`, `src/providers/anthropic-provider.ts`);
* the base evaluation runner with its artifact pre-flight check and
  retry/backoff loop (`src/providers/base-provider.ts`);
* the provider registry / dispatch service (`src/utils/llm-service.ts`);
* the Cypress task entry point (`src/cypress/plugin.ts`);
* the `vibeCheck` decision gate and option merging
  (`src/cypress/commands/screenshot-commands.ts`, `src/config/config.ts`).

JavaScript numbers are modelled as rationals (`ℚ`), JS `undefined` /
optional fields as `Option`, thrown exceptions as `Except String`.
-/

namespace VibeCheck

/-! ## JSON values

The providers feed the model reply to the runtime's `JSON.parse` and
`JSON.stringify`.  Those builtins are modelled here over the JSON grammar:
values are null, booleans, numbers, strings, arrays and objects; parsed
objects keep their first-occurrence key order with later duplicate keys
overwriting earlier values, as the ECMAScript builtin does. -/

inductive JsonValue where
  | null : JsonValue
  | bool (b : Bool) : JsonValue
  | num (q : ℚ) : JsonValue
  | str (s : String) : JsonValue
  | arr (elems : List JsonValue) : JsonValue
  | obj (fields : List (String × JsonValue)) : JsonValue

/-- Insert-or-replace on an association list: an existing key keeps its
position and gets the new value, a new key is appended.  This is the update
behaviour both of a JS `Map.set` and of a duplicate key in a JS object. -/
def setEntry {α : Type} (l : List (String × α)) (k : String) (v : α) :
    List (String × α) :=
  if (l.map Prod.fst).contains k then
    l.map (fun e => if e.1 = k then (k, v) else e)
  else
    l ++ [(k, v)]

namespace Json

/-- JSON insignificant whitespace. -/
def isWs (c : Char) : Bool :=
  c = ' ' || c = '\n' || c = '\t' || c = '\r'

def skipWs (cs : List Char) : List Char :=
  cs.dropWhile isWs

def isDigit (c : Char) : Bool :=
  48 ≤ c.toNat && c.toNat ≤ 57

def digitVal (c : Char) : ℕ :=
  c.toNat - 48

def hexVal (c : Char) : Option ℕ :=
  let n := c.toNat
  if 48 ≤ n && n ≤ 57 then some (n - 48)
  else if 97 ≤ n && n ≤ 102 then some (n - 87)
  else if 65 ≤ n && n ≤ 70 then some (n - 55)
  else none

/-- Read a run of decimal digits, returning their value, the count read and
the rest of the input. -/
def takeDigits : List Char → ℕ → ℕ → (ℕ × ℕ × List Char)
  | c :: cs, acc, n =>
    if isDigit c then takeDigits cs (acc * 10 + digitVal c) (n + 1)
    else (acc, n, c :: cs)
  | [], acc, n => (acc, n, [])

/-- Parse the body of a JSON string (the opening quote already consumed). -/
def parseStringBody : List Char → List Char → Option (String × List Char)
  | [], _ => none
  | c :: cs, acc =>
    if c = '"' then some (String.mk acc.reverse, cs)
    else if c = '\\' then
      match cs with
      | [] => none
      | e :: cs' =>
        if e = '"' then parseStringBody cs' ('"' :: acc)
        else if e = '\\' then parseStringBody cs' ('\\' :: acc)
        else if e = '/' then parseStringBody cs' ('/' :: acc)
        else if e = 'n' then parseStringBody cs' ('\n' :: acc)
        else if e = 't' then parseStringBody cs' ('\t' :: acc)
        else if e = 'r' then parseStringBody cs' ('\r' :: acc)
        else if e = 'b' then parseStringBody cs' ('\x08' :: acc)
        else if e = 'f' then parseStringBody cs' ('\x0c' :: acc)
        else if e = 'u' then
          match cs' with
          | h1 :: h2 :: h3 :: h4 :: cs'' =>
            match hexVal h1, hexVal h2, hexVal h3, hexVal h4 with
            | some a, some b, some c2, some d =>
              parseStringBody cs''
                (Char.ofNat (a * 4096 + b * 256 + c2 * 16 + d) :: acc)
            | _, _, _, _ => none
          | _ => none
        else none
    else parseStringBody cs (c :: acc)

/-- Read an optional exponent part (`e`/`E`, optional sign, digits). -/
def takeExpo (cs : List Char) : ℤ × List Char :=
  match cs with
  | e :: rest =>
    if e = 'e' || e = 'E' then
      match rest with
      | '+' :: rest2 =>
        let (v, n, r) := takeDigits rest2 0 0
        if n = 0 then (0, cs) else ((v : ℤ), r)
      | '-' :: rest2 =>
        let (v, n, r) := takeDigits rest2 0 0
        if n = 0 then (0, cs) else (-(v : ℤ), r)
      | _ =>
        let (v, n, r) := takeDigits rest 0 0
        if n = 0 then (0, cs) else ((v : ℤ), r)
    else (0, cs)
  | [] => (0, cs)

/-- Parse a JSON number: optional minus, integer digits, optional fraction,
optional exponent. -/
def parseNumber (cs : List Char) : Option (ℚ × List Char) :=
  let (neg, cs₁) :=
    match cs with
    | '-' :: rest => (true, rest)
    | _ => (false, cs)
  match cs₁ with
  | c :: _ =>
    if isDigit c then
      let (ip, _, cs₂) := takeDigits cs₁ 0 0
      let (frac, fracLen, cs₃) :=
        match cs₂ with
        | '.' :: rest =>
          match rest with
          | d :: _ =>
            if isDigit d then takeDigits rest 0 0
            else ((0 : ℕ), (0 : ℕ), cs₂)
          | [] => ((0 : ℕ), (0 : ℕ), cs₂)
        | _ => ((0 : ℕ), (0 : ℕ), cs₂)
      let mant : ℚ := (ip : ℚ) + (frac : ℚ) / (10 : ℚ) ^ fracLen
      let (expo, cs₄) := takeExpo cs₃
      let q : ℚ := (if neg then -mant else mant) * (10 : ℚ) ^ expo
      some (q, cs₄)
    else none
  | [] => none

mutual

/-- Parse one JSON value starting at `cs`.  `fuel` bounds the recursion
depth; the top-level entry point supplies more fuel than any input of that
length can consume. -/
def parseValue : ℕ → List Char → Option (JsonValue × List Char)
  | 0, _ => none
  | fuel + 1, cs =>
    match skipWs cs with
    | [] => none
    | c :: rest =>
      if c = '"' then
        match parseStringBody rest [] with
        | some (s, r) => some (.str s, r)
        | none => none
      else if c = '\x7b' then
        match skipWs rest with
        | '\x7d' :: r => some (.obj [], r)
        | _ => parseMembers fuel rest []
      else if c = '[' then
        match skipWs rest with
        | ']' :: r => some (.arr [], r)
        | _ => parseElements fuel rest []
      else if c = 't' then
        match rest with
        | 'r' :: 'u' :: 'e' :: r => some (.bool true, r)
        | _ => none
      else if c = 'f' then
        match rest with
        | 'a' :: 'l' :: 's' :: 'e' :: r => some (.bool false, r)
        | _ => none
      else if c = 'n' then
        match rest with
        | 'u' :: 'l' :: 'l' :: r => some (.null, r)
        | _ => none
      else
        match parseNumber (c :: rest) with
        | some (q, r) => some (.num q, r)
        | none => none

/-- Parse the members of a JSON object (after the opening brace of a
non-empty object), accumulating parsed fields. -/
def parseMembers (fuel : ℕ) (cs : List Char) (acc : List (String × JsonValue)) :
    Option (JsonValue × List Char) :=
  match fuel with
  | 0 => none
  | fuel + 1 =>
    match skipWs cs with
    | '"' :: rest =>
      match parseStringBody rest [] with
      | some (k, r) =>
        match skipWs r with
        | ':' :: r2 =>
          match parseValue fuel r2 with
          | some (v, r3) =>
            let acc' := setEntry acc k v
            match skipWs r3 with
            | ',' :: r4 => parseMembers fuel r4 acc'
            | '\x7d' :: r4 => some (.obj acc', r4)
            | _ => none
          | none => none
        | _ => none
      | none => none
    | _ => none

/-- Parse the elements of a JSON array (after the opening bracket of a
non-empty array), accumulating parsed elements in reverse. -/
def parseElements (fuel : ℕ) (cs : List Char) (acc : List JsonValue) :
    Option (JsonValue × List Char) :=
  match fuel with
  | 0 => none
  | fuel + 1 =>
    match parseValue fuel cs with
    | some (v, r) =>
      match skipWs r with
      | ',' :: r2 => parseElements fuel r2 (v :: acc)
      | ']' :: r2 => some (.arr (v :: acc).reverse, r2)
      | _ => none
    | none => none

end

/-- Model of the runtime's `JSON.parse`: parse one value and reject trailing
garbage; `none` models the builtin throwing a `SyntaxError`. -/
def parse (s : String) : Option JsonValue :=
  match parseValue (s.length + 1) s.data with
  | some (v, rest) => if skipWs rest = [] then some v else none
  | none => none

/-- Escape a string for JSON output, as `JSON.stringify` does. -/
def escapeChar (c : Char) : List Char :=
  if c = '"' then ['\\', '"']
  else if c = '\\' then ['\\', '\\']
  else if c = '\n' then ['\\', 'n']
  else if c = '\t' then ['\\', 't']
  else if c = '\r' then ['\\', 'r']
  else [c]

def quote (s : String) : String :=
  "\"" ++ String.mk (s.data.flatMap escapeChar) ++ "\""

/-- Render a rational that is a finite decimal the way JS renders the
corresponding number: integer part, and a fractional part only when
non-zero.  (All numbers handled by this development are finite decimals.) -/
def fracDigits (r : ℚ) (fuel : ℕ) : String :=
  match fuel with
  | 0 => ""
  | fuel + 1 =>
    if r = 0 then ""
    else
      let d : ℤ := ⌊r * 10⌋
      toString d ++ fracDigits (r * 10 - (d : ℚ)) fuel

def numRender (q : ℚ) : String :=
  (if q < 0 then "-" else "") ++
    (toString ⌊|q|⌋ ++
      (if |q| - (⌊|q|⌋ : ℚ) = 0 then ""
       else "." ++ fracDigits (|q| - (⌊|q|⌋ : ℚ)) 20))

mutual

/-- Model of the runtime's `JSON.stringify` (compact form, insertion key
order), used by the providers to report a malformed reply object. -/
def stringify : JsonValue → String
  | .null => "null"
  | .bool true => "true"
  | .bool false => "false"
  | .num q => numRender q
  | .str s => quote s
  | .arr xs => "[" ++ stringifyElems xs ++ "]"
  | .obj fs => "\x7b" ++ stringifyFields fs ++ "\x7d"

def stringifyElems : List JsonValue → String
  | [] => ""
  | [x] => stringify x
  | x :: xs => stringify x ++ "," ++ stringifyElems xs

def stringifyFields : List (String × JsonValue) → String
  | [] => ""
  | [(k, v)] => quote k ++ ":" ++ stringify v
  | (k, v) :: fs => quote k ++ ":" ++ stringify v ++ "," ++ stringifyFields fs

end

end Json

/-! ## JavaScript value helpers

The parsed reply is an untyped JS value; the source reads fields off it
with JS truthiness (`x || dflt`) and string coercion.  These helpers model
those ECMAScript semantics for JSON values. -/

/-- JS truthiness of a JSON value. -/
def jsTruthy : JsonValue → Bool
  | .null => false
  | .bool b => b
  | .num q => q ≠ 0
  | .str s => s ≠ ""
  | .arr _ => true
  | .obj _ => true

mutual

/-- JS string coercion `String(v)` of a JSON value. -/
def jsToString : JsonValue → String
  | .null => "null"
  | .bool true => "true"
  | .bool false => "false"
  | .num q => Json.numRender q
  | .str s => s
  | .arr xs => jsToStringElems xs
  | .obj _ => "[object Object]"

def jsToStringElems : List JsonValue → String
  | [] => ""
  | [x] => jsToString x
  | x :: xs => jsToString x ++ "," ++ jsToStringElems xs

end

/-- Field access on a parsed object (`resultJson.k`); parsing collapsed
duplicate keys, so a plain lookup suffices. -/
def getField (fields : List (String × JsonValue)) (k : String) : Option JsonValue :=
  fields.lookup k

/-- The JS `in` operator on a parsed object: does the key exist? -/
def hasField (fields : List (String × JsonValue)) (k : String) : Bool :=
  (fields.lookup k).isSome

/-- `resultJson.k || dflt` where the result is assigned to a string-typed
field: the field value when truthy, the default otherwise. -/
def fieldOrDefault (fields : List (String × JsonValue)) (k : String)
    (dflt : String) : String :=
  match fields.lookup k with
  | some v => if jsTruthy v then jsToString v else dflt
  | none => dflt

/-- Numeric reading of a JSON field.  The source assigns the parsed value
directly to the number-typed `confidence` field; replies carry it as a JSON
number, which this projection extracts. -/
def JsonValue.asNum : JsonValue → ℚ
  | .num q => q
  | _ => 0

/-! ## The normalized evaluation result

`LLMResponse` from `src/types/llm.ts`: the fields produced by the providers
(`confidence`, `reasoning`, `verdict`, `rawResponse`) and the optional
diagnostic fields consumed by the decision gate
(`failReason`, `suggestions`). -/

structure LLMResponse where
  confidence : ℚ
  reasoning : String
  verdict : String
  failReason : Option String := none
  suggestions : Option (List String) := none
  rawResponse : Option String := none
deriving DecidableEq, Repr

/-! ## The providers' response-parsing stage

`OpenAIProvider.evaluateScreenshotInternal` (lines 182-217) and
`AnthropicProvider.evaluateScreenshotInternal` (lines 184-228) run the same
extraction/parse/validate steps on the textual reply `content`; the
`rawResponse` attachment below is the OpenAI variant (the raw content
string). -/

/-- The JSON extraction `content.match(/(\x7b[\s\S]*\x7d)/)`: the regex is
greedy, so the match spans from the first opening brace to the last closing
brace of the reply, and fails when no closing brace follows the first
opening brace. -/
def matchFirstToLastBrace (cs : List Char) : Option (List Char) :=
  let afterFirst := cs.dropWhile (fun c => c ≠ '\x7b')
  let upToLast := (afterFirst.reverse.dropWhile (fun c => c ≠ '\x7d')).reverse
  if 2 ≤ upToLast.length then some upToLast else none

def matchedJsonText (content : String) : Option String :=
  (matchFirstToLastBrace content.data).map String.mk

/-- The `try` block around `JSON.parse`: parse the regex match when there is
one, the whole content otherwise; `none` models the `catch` being entered. -/
def parsedCandidate (content : String) : Option JsonValue :=
  match matchedJsonText content with
  | some s => Json.parse s
  | none => Json.parse content

/-- The object built in the `catch` branch when parsing fails. -/
def parseFallback (content : String) : JsonValue :=
  .obj [("confidence", .num 0),
        ("reasoning", .str ("Error parsing response: " ++ content)),
        ("verdict", .str "no")]

def resultJsonOf (content : String) : JsonValue :=
  (parsedCandidate content).getD (parseFallback content)

/-- The tail of `evaluateScreenshotInternal`: validate the parsed object and
normalize it into an `LLMResponse`.  A primitive parse result makes the JS
`in` operator throw a `TypeError` (modelled as `.error`), which the outer
`catch` rethrows to the retry layer. -/
def parsedLLMResponse (content : String) (includeRawResponse : Bool) :
    Except String LLMResponse :=
  match resultJsonOf content with
  | .obj fields =>
    if hasField fields "confidence" then
      .ok { confidence := ((fields.lookup "confidence").getD .null).asNum,
            reasoning := fieldOrDefault fields "reasoning" "No reasoning provided",
            verdict := fieldOrDefault fields "verdict" "no",
            rawResponse := if includeRawResponse then some content else none }
    else
      .ok { confidence := 0,
            reasoning := "Invalid response format: " ++ Json.stringify (.obj fields),
            verdict := "no",
            rawResponse := if includeRawResponse then some content else none }
  | .arr elems =>
      .ok { confidence := 0,
            reasoning := "Invalid response format: " ++ Json.stringify (.arr elems),
            verdict := "no",
            rawResponse := if includeRawResponse then some content else none }
  | _ => .error "TypeError: cannot use the in operator on a primitive"

/-- A provider's normalized result, generic over the type of the payload it
attaches as `rawResponse`: a string for the OpenAI provider, the parsed
response body for the Anthropic one. -/
structure ProviderResult (ρ : Type) where
  confidence : ℚ
  reasoning : String
  verdict : String
  rawResponse : Option ρ

/-- The same validate/normalize tail, with the `rawResponse` payload as a
parameter — the one point where the two providers differ:
`OpenAIProvider.evaluateScreenshotInternal` attaches the raw reply text
`content` itself (lines 202-217), while
`AnthropicProvider.evaluateScreenshotInternal` attaches the full parsed
response body `data` (lines 213-228).  `parsedLLMResponse` above is the
OpenAI instance (`raw := content`). -/
def normalizedResult {ρ : Type} (content : String)
    (includeRawResponse : Bool) (raw : ρ) : Except String (ProviderResult ρ) :=
  match resultJsonOf content with
  | .obj fields =>
    if hasField fields "confidence" then
      .ok { confidence := ((fields.lookup "confidence").getD .null).asNum,
            reasoning := fieldOrDefault fields "reasoning" "No reasoning provided",
            verdict := fieldOrDefault fields "verdict" "no",
            rawResponse := if includeRawResponse then some raw else none }
    else
      .ok { confidence := 0,
            reasoning := "Invalid response format: " ++ Json.stringify (.obj fields),
            verdict := "no",
            rawResponse := if includeRawResponse then some raw else none }
  | .arr elems =>
      .ok { confidence := 0,
            reasoning := "Invalid response format: " ++ Json.stringify (.arr elems),
            verdict := "no",
            rawResponse := if includeRawResponse then some raw else none }
  | _ => .error "TypeError: cannot use the in operator on a primitive"

/-! ## The base evaluation runner

`BaseLLMProvider.evaluateScreenshot`: pre-flight artifact existence check,
option merging, and the retry loop with exponential backoff.  The outcome
records, besides the returned value or thrown error, how many times the
provider-specific `evaluateScreenshotInternal` ran and which backoff waits
(in milliseconds) were taken between attempts. -/

instance {ε α : Type} [DecidableEq ε] [DecidableEq α] : DecidableEq (Except ε α) :=
  fun a b =>
    match a, b with
    | .ok x, .ok y => decidable_of_iff (x = y) (by simp)
    | .error x, .error y => decidable_of_iff (x = y) (by simp)
    | .ok _, .error _ => isFalse (by simp)
    | .error _, .ok _ => isFalse (by simp)

structure EvalOutcome where
  result : Except String LLMResponse
  calls : ℕ
  waits : List ℕ
deriving DecidableEq, Repr

/-- `1000 * Math.pow(2, attempt - 1)` milliseconds. -/
def backoffWait (attempt : ℕ) : ℕ :=
  1000 * 2 ^ (attempt - 1)

/-- The `for` loop of `evaluateScreenshot`: try attempt `attempt`; on
success return; on error rethrow when `attempt >= maxRetries`, otherwise
wait and continue with `attempt + 1`. -/
def retryAttempts (internal : ℕ → Except String LLMResponse)
    (maxRetries attempt calls : ℕ) (waits : List ℕ) : EvalOutcome :=
  match internal attempt with
  | .ok r => ⟨.ok r, calls + 1, waits⟩
  | .error e =>
    if h : maxRetries ≤ attempt then ⟨.error e, calls + 1, waits⟩
    else retryAttempts internal maxRetries (attempt + 1) (calls + 1)
      (waits ++ [backoffWait attempt])
termination_by maxRetries - attempt
decreasing_by omega

/-- `BaseLLMProvider.evaluateScreenshot`.  `internal` maps the attempt
number to the outcome of that attempt's `evaluateScreenshotInternal` call
(which receives the merged options); `optionsMaxRetries` is the caller's
`options.maxRetries`, merged over `config.defaultMaxRetries` by the options
spread, and guarded by `|| 1` at the loop bounds. -/
def evaluateScreenshot (isBrowser fileExists : Bool) (screenshotPath : String)
    (internal : ℕ → Except String LLMResponse)
    (optionsMaxRetries : Option ℕ) (defaultMaxRetries : ℕ) : EvalOutcome :=
  if !isBrowser && !fileExists then
    ⟨.error ("Screenshot does not exist at path: " ++ screenshotPath), 0, []⟩
  else
    let mergedMaxRetries := optionsMaxRetries.getD defaultMaxRetries
    let effective := if mergedMaxRetries = 0 then 1 else mergedMaxRetries
    retryAttempts internal effective 1 0 []

/-! ## The Cypress task entry point

`evaluateScreenshotWithLLM` in `src/cypress/plugin.ts`: the Node-side task
that the browser command delegates to.  `serviceOutcome` is the settled
promise of `llmService.evaluateScreenshot`. -/

def evaluateScreenshotWithLLMTask (fileExists : Bool) (screenshotPath : String)
    (serviceOutcome : Except String LLMResponse) : Except String LLMResponse :=
  if !fileExists then
    .ok { confidence := 0,
          reasoning := "Screenshot does not exist at path: " ++ screenshotPath,
          verdict := "no",
          failReason := some "Screenshot file not found" }
  else
    match serviceOutcome with
    | .ok r => .ok r
    | .error e =>
      .ok { confidence := 0,
            reasoning := e,
            verdict := "no",
            failReason := some "Error communicating with LLM service" }

/-! ## The provider registry / dispatch service

`LLMService` in `src/utils/llm-service.ts`, polymorphic over the provider
instance type.  The `Map` of providers is modelled as an insertion-ordered
association list. -/

structure LLMService (π : Type) where
  providers : List (String × π) := []
  defaultProvider : Option String := none

namespace LLMService

variable {π : Type}

def registerProvider (s : LLMService π) (name : String) (p : π)
    (makeDefault : Bool) : LLMService π :=
  { providers := setEntry s.providers name p,
    defaultProvider :=
      if makeDefault || s.defaultProvider.isNone then some name
      else s.defaultProvider }

def setDefaultProvider (s : LLMService π) (name : String) :
    Except String (LLMService π) :=
  if (s.providers.lookup name).isSome then
    .ok { s with defaultProvider := some name }
  else
    .error ("Provider \"" ++ name ++ "\" is not registered")

/-- `getProvider(name?)`; an empty string is falsy in JS, so it falls back
to the default like an omitted name. -/
def getProvider (s : LLMService π) (name : Option String) : Except String π :=
  let providerName :=
    match name with
    | some n => if n = "" then s.defaultProvider else some n
    | none => s.defaultProvider
  match providerName with
  | none => .error "No provider specified and no default provider is set"
  | some n =>
    match s.providers.lookup n with
    | some p => .ok p
    | none => .error ("Provider \"" ++ n ++ "\" is not registered")

/-- `LLMService.evaluateScreenshot`: resolve the provider, then delegate to
its evaluation entry point.  `run p` models
`p.evaluateScreenshot(screenshotPath, specification, options)` for the
call's fixed arguments. -/
def evaluateScreenshot (s : LLMService π)
    (run : π → Except String LLMResponse) (providerName : Option String) :
    Except String LLMResponse :=
  match s.getProvider providerName with
  | .ok p => run p
  | .error e => .error e

end LLMService

/-! ## The `vibeCheck` decision gate

`vibeCheck` in `src/cypress/commands/screenshot-commands.ts`, lines
124-157: pass/fail on the evaluation result, with the structured failure
message. -/

/-- JS `Array.prototype.join(sep)`. -/
def joinWith (sep : String) : List String → String
  | [] => ""
  | [s] => s
  | s :: rest => s ++ sep ++ joinWith sep rest

/-- JS `Number.prototype.toFixed(2)` on a finite-decimal rational. -/
def toFixed2 (q : ℚ) : String :=
  let m : ℤ := ⌊|q| * 100 + 1 / 2⌋
  (if q < 0 && m ≠ 0 then "-" else "") ++ toString (m / 100) ++ "." ++
    (if m % 100 < 10 then "0" else "") ++ toString (m % 100)

/-- The failure-message lines: the array literal in `vibeCheck`, before
`.filter(Boolean).join("\n")` removes the empty entries. -/
def vibeFailureLines (specification screenshotPath : String) (t : ℚ)
    (r : LLMResponse) : List String :=
  ([ "❌ Vibe check failed!",
    "Specification: \"" ++ specification ++ "\"",
    "Confidence: " ++ toFixed2 r.confidence ++ " (threshold: " ++
      Json.numRender t ++ ")",
    "Reasoning: " ++ (if r.reasoning = "" then "No reasoning provided"
      else r.reasoning),
    (match r.failReason with
     | some fr => if fr = "" then "" else "Fail reason: " ++ fr
     | none => ""),
    (match r.suggestions with
     | some l => if 0 < l.length then "Suggestions: " ++ joinWith ", " l
       else ""
     | none => ""),
    "Screenshot path: " ++ screenshotPath
  ]).filter (fun s => s != "")

def vibeFailureMessage (specification screenshotPath : String) (t : ℚ)
    (r : LLMResponse) : String :=
  joinWith "\n" (vibeFailureLines specification screenshotPath t r)

/-- The decision gate: pass (returning the original subject for chaining)
iff the verdict is `yes` and the confidence reaches the threshold; throw
the structured failure message otherwise. -/
def vibeCheckGate {α : Type} (subject : α)
    (specification screenshotPath : String) (t : ℚ) (r : LLMResponse) :
    Except String α :=
  if r.verdict = "yes" ∧ t ≤ r.confidence then .ok subject
  else .error (vibeFailureMessage specification screenshotPath t r)

/-! ## Runtime configuration and option merging

`VibeConfig` from `src/config/config.ts` and the runtime config object
mutated by `configureVibes`.  `Object.assign(runtimeConfig, options)`
copies the flat option keys onto the top level of the config object; the
source `VibeConfig` interface does not declare such keys, so they are
modelled as the extra `top*` fields below, distinct from the nested
`evaluation` block that `vibeCheck` actually reads. -/

structure EvaluationDefaults where
  confidenceThreshold : ℚ
  includeRawResponse : Bool
  maxRetries : ℕ
  modelParameters : List (String × JsonValue)

structure VibeConfig where
  defaultProvider : String
  evaluation : EvaluationDefaults
  topProvider : Option String := none
  topConfidenceThreshold : Option ℚ := none
  topIncludeRawResponse : Option Bool := none
  topMaxRetries : Option ℕ := none

/-- The `evaluation` block of `defaultConfig`. -/
def defaultEvaluation : EvaluationDefaults :=
  { confidenceThreshold := 8 / 10,
    includeRawResponse := false,
    maxRetries := 2,
    modelParameters := [] }

/-- `defaultConfig` (its provider entries are irrelevant to the merge). -/
def defaultVibeConfig : VibeConfig :=
  { defaultProvider := "openai", evaluation := defaultEvaluation }

/-- `loadConfig()` in the branch with no environment variables and no
Cypress `vibe` settings: it returns the defaults unchanged. -/
def loadConfigPlain : VibeConfig := defaultVibeConfig

/-- The flat options accepted by `cy.configureVibes`. -/
structure ConfigureVibesOptions where
  provider : Option String := none
  confidenceThreshold : Option ℚ := none
  includeRawResponse : Option Bool := none
  maxRetries : Option ℕ := none

/-- `configureVibes`: `Object.assign(runtimeConfig, options)` writes each
provided option as a top-level key of the runtime config. -/
def configureVibes (c : VibeConfig) (o : ConfigureVibesOptions) : VibeConfig :=
  { c with
    topProvider := o.provider.or c.topProvider,
    topConfidenceThreshold := o.confidenceThreshold.or c.topConfidenceThreshold,
    topIncludeRawResponse := o.includeRawResponse.or c.topIncludeRawResponse,
    topMaxRetries := o.maxRetries.or c.topMaxRetries }

/-- The per-call options accepted by `cy.vibeCheck`. -/
structure VibeCheckOptions where
  name : Option String := none
  provider : Option String := none
  confidenceThreshold : Option ℚ := none
  includeRawResponse : Option Bool := none
  maxRetries : Option ℕ := none

/-- The merge at the top of `vibeCheck`:
`{ ...runtimeConfig.evaluation, provider: runtimeConfig.defaultProvider,
...options }` — the threshold used by the gate. -/
def vibeCheckMergedThreshold (c : VibeConfig) (o : VibeCheckOptions) : ℚ :=
  o.confidenceThreshold.getD c.evaluation.confidenceThreshold

def vibeCheckMergedProvider (c : VibeConfig) (o : VibeCheckOptions) : String :=
  o.provider.getD c.defaultProvider

/-! ## Provider configuration and request bodies

`LLMProviderConfig` (`src/types/llm.ts`), `BaseLLMProvider.validateConfig`,
and the HTTP request bodies built by the two
`evaluateScreenshotInternal` implementations. -/

structure LLMProviderConfig where
  apiKey : Option String := none
  apiKeyEnvVar : Option String := none
  defaultConfidenceThreshold : Option ℚ := none
  defaultMaxRetries : Option ℕ := none
  temperature : Option ℚ := none
  model : Option String := none

/-- JS falsiness of an optional string (`undefined` or `""`). -/
def jsFalsyStr : Option String → Bool
  | none => true
  | some s => s = ""

/-- `x || d` for an optional number (`undefined` and `0` are falsy). -/
def orFalsyQ (o : Option ℚ) (d : ℚ) : ℚ :=
  match o with
  | some q => if q = 0 then d else q
  | none => d

def orFalsyN (o : Option ℕ) (d : ℕ) : ℕ :=
  match o with
  | some n => if n = 0 then d else n
  | none => d

def orFalsyStr (o : Option String) (d : String) : String :=
  match o with
  | some s => if s = "" then d else s
  | none => d

/-- `BaseLLMProvider.validateConfig`: resolve the API key from the
environment when absent, then fill in the defaults.  `env` models
`process.env`. -/
def validateConfig (env : String → Option String)
    (config : LLMProviderConfig) : LLMProviderConfig :=
  let key :=
    if jsFalsyStr config.apiKey then
      match config.apiKeyEnvVar with
      | some v => if v = "" then config.apiKey else some ((env v).getD "")
      | none => config.apiKey
    else config.apiKey
  { config with
    apiKey := key,
    defaultConfidenceThreshold :=
      some (orFalsyQ config.defaultConfidenceThreshold (8 / 10)),
    defaultMaxRetries := some (orFalsyN config.defaultMaxRetries 3),
    temperature := some (orFalsyQ config.temperature (3 / 10)) }

/-- A JS object literal ending in a spread, `{ ...base, ...extra }` at the
level of key/value lists: keys of `base` keep their position (overridden by
`extra` where both have the key), new keys of `extra` are appended. -/
def spreadMerge (base extra : List (String × JsonValue)) :
    List (String × JsonValue) :=
  base.map (fun e => (e.1, (extra.lookup e.1).getD e.2))
  ++ extra.filter (fun e => (base.lookup e.1).isNone)

/-- The `messages` array of the OpenAI request body. -/
def openAIMessages (systemPrompt base64Image : String) : JsonValue :=
  .arr [
    .obj [("role", .str "system"), ("content", .str systemPrompt)],
    .obj [("role", .str "user"),
          ("content", .arr [
            .obj [("type", .str "text"),
                  ("text", .str "Evaluate if this UI element matches the specification.")],
            .obj [("type", .str "image_url"),
                  ("image_url", .obj [("url",
                    .str ("data:image/png;base64," ++ base64Image))])]])]]

/-- The OpenAI request body
(`OpenAIProvider.evaluateScreenshotInternal`, lines 128-154): fixed keys
first, then `...(options.modelParameters || \x7b\x7d)` spread last. -/
def openAIRequestBody (config : LLMProviderConfig)
    (modelParameters : List (String × JsonValue))
    (systemPrompt base64Image : String) : List (String × JsonValue) :=
  spreadMerge
    [("model", .str (orFalsyStr config.model "gpt-4o")),
     ("messages", openAIMessages systemPrompt base64Image),
     ("max_tokens", .num 1500),
     ("temperature", .num (2 / 10))]
    modelParameters

/-- The `messages` array of the Anthropic request body. -/
def anthropicMessages (base64Image : String) : JsonValue :=
  .arr [
    .obj [("role", .str "user"),
          ("content", .arr [
            .obj [("type", .str "text"),
                  ("text", .str "Evaluate if this UI element matches the specification.")],
            .obj [("type", .str "image"),
                  ("source", .obj [("type", .str "base64"),
                                   ("media_type", .str "image/png"),
                                   ("data", .str base64Image)])]])]]

/-- The Anthropic request body
(`AnthropicProvider.evaluateScreenshotInternal`, lines 128-153). -/
def anthropicRequestBody (config : LLMProviderConfig)
    (modelParameters : List (String × JsonValue))
    (systemPrompt base64Image : String) : List (String × JsonValue) :=
  spreadMerge
    [("model", .str (orFalsyStr config.model "claude-3-7-sonnet-latest")),
     ("system", .str systemPrompt),
     ("messages", anthropicMessages base64Image),
     ("temperature", .num (2 / 10)),
     ("max_tokens", .num 1500)]
    modelParameters

/-! ## Spec-side definition for the extraction refinement

The specification describes the extraction as locating "the first
`\x7b...\x7d` balanced-looking substring" of the reply.  The definition
below follows those words (for comparison with the source's
first-brace-to-last-brace extraction above): scan to the first opening
brace and take the shortest brace-balanced span from there. -/

def balancedSpan : List Char → ℕ → List Char → Option (List Char)
  | [], _, _ => none
  | c :: cs, depth, acc =>
    if c = '\x7b' then balancedSpan cs (depth + 1) (c :: acc)
    else if c = '\x7d' then
      if depth ≤ 1 then some (c :: acc).reverse
      else balancedSpan cs (depth - 1) (c :: acc)
    else balancedSpan cs depth (c :: acc)

def firstBalancedBrace (content : String) : Option String :=
  (balancedSpan (content.data.dropWhile (fun c => c ≠ '\x7b')) 0 []).map
    String.mk

/-! ## Helper lemmas: substring containment -/

/-- `pat` occurs as a contiguous substring of `s`. -/
def StrIncl (pat s : String) : Prop :=
  pat.data <:+: s.data

instance (p s : String) : Decidable (StrIncl p s) :=
  inferInstanceAs (Decidable (p.data <:+: s.data))

theorem strIncl_refl (s : String) : StrIncl s s :=
  List.infix_refl _

theorem StrIncl.trans {a b c : String} (h1 : StrIncl a b) (h2 : StrIncl b c) :
    StrIncl a c :=
  List.IsInfix.trans h1 h2

theorem StrIncl.appendRight {p s : String} (h : StrIncl p s) (u : String) :
    StrIncl p (s ++ u) := by
  obtain ⟨x, y, hxy⟩ := h
  exact ⟨x, y ++ u.data, by rw [String.data_append, ← hxy]; simp⟩

theorem StrIncl.appendLeft {p s : String} (h : StrIncl p s) (u : String) :
    StrIncl p (u ++ s) := by
  obtain ⟨x, y, hxy⟩ := h
  exact ⟨u.data ++ x, y, by rw [String.data_append, ← hxy]; simp⟩

theorem strIncl_append_mid (a p b : String) : StrIncl p (a ++ p ++ b) :=
  ((strIncl_refl p).appendLeft a).appendRight b

theorem ne_append_right (a : String) {b : String} (hb : b ≠ "") :
    a ++ b ≠ "" := by
  intro hc
  apply hb
  have hd : a.data ++ b.data = ([] : List Char) := by
    rw [← String.data_append, hc]
  rcases List.append_eq_nil.mp hd with ⟨-, h2⟩
  cases b
  simp_all

theorem ne_append_left {a : String} (b : String) (ha : a ≠ "") :
    a ++ b ≠ "" := by
  intro hc
  apply ha
  have hd : a.data ++ b.data = ([] : List Char) := by
    rw [← String.data_append, hc]
  rcases List.append_eq_nil.mp hd with ⟨h1, -⟩
  cases a
  simp_all

theorem strIncl_joinWith {sep : String} {lines : List String} {l : String}
    (h : l ∈ lines) : StrIncl l (joinWith sep lines) := by
  induction lines with
  | nil => cases h
  | cons a rest ih =>
    cases rest with
    | nil =>
      rcases List.mem_cons.mp h with rfl | hmem
      · exact strIncl_refl _
      · cases hmem
    | cons b rest2 =>
      rcases List.mem_cons.mp h with rfl | hmem
      · show StrIncl l (l ++ sep ++ joinWith sep (b :: rest2))
        exact ((strIncl_refl l).appendRight sep).appendRight _
      · exact (ih hmem).appendLeft _

/-! ## Helper lemmas: the retry loop -/

theorem retryAttempts_reaches_success
    (f : ℕ → Except String LLMResponse) (m k : ℕ) (v : LLMResponse)
    (hkm : k ≤ m) (hsucc : f k = .ok v) :
    ∀ (a : ℕ), a ≤ k → (∀ i, a ≤ i → i < k → ∃ e, f i = Except.error e) →
    ∀ (c : ℕ) (w : List ℕ),
      retryAttempts f m a c w =
        ⟨.ok v, c + (k - a) + 1, w ++ (List.range' a (k - a)).map backoffWait⟩ := by
  suffices H : ∀ n a, k - a = n → a ≤ k →
      (∀ i, a ≤ i → i < k → ∃ e, f i = Except.error e) →
      ∀ c w, retryAttempts f m a c w =
        ⟨.ok v, c + (k - a) + 1, w ++ (List.range' a (k - a)).map backoffWait⟩ by
    intro a ha hf c w
    exact H (k - a) a rfl ha hf c w
  intro n
  induction n with
  | zero =>
    intro a hna ha _ c w
    have hak : a = k := by omega
    subst hak
    rw [retryAttempts, hsucc]
    simp
  | succ n ih =>
    intro a hna ha hf c w
    have hak : a < k := by omega
    obtain ⟨e, he⟩ := hf a le_rfl hak
    rw [retryAttempts, he]
    dsimp only
    have hma : ¬ m ≤ a := by omega
    rw [dif_neg hma]
    rw [ih (a + 1) (by omega) (by omega)
      (fun i h1 h2 => hf i (by omega) h2) (c + 1) (w ++ [backoffWait a])]
    have hspan : k - a = (k - (a + 1)) + 1 := by omega
    rw [hspan, List.range'_succ]
    simp [EvalOutcome.mk.injEq]
    omega

theorem retryAttempts_exhausts
    (f : ℕ → Except String LLMResponse) (m : ℕ) (errs : ℕ → String)
    (herrs : ∀ i, 1 ≤ i → i ≤ m → f i = Except.error (errs i)) :
    ∀ (a : ℕ), 1 ≤ a → a ≤ m →
    ∀ (c : ℕ) (w : List ℕ),
      retryAttempts f m a c w =
        ⟨.error (errs m), c + (m - a) + 1,
         w ++ (List.range' a (m - a)).map backoffWait⟩ := by
  suffices H : ∀ n a, m - a = n → 1 ≤ a → a ≤ m →
      ∀ c w, retryAttempts f m a c w =
        ⟨.error (errs m), c + (m - a) + 1,
         w ++ (List.range' a (m - a)).map backoffWait⟩ by
    intro a h1 ha c w
    exact H (m - a) a rfl h1 ha c w
  intro n
  induction n with
  | zero =>
    intro a hna h1 ha c w
    have hak : a = m := by omega
    subst hak
    rw [retryAttempts, herrs a h1 le_rfl]
    dsimp only
    rw [dif_pos le_rfl]
    simp
  | succ n ih =>
    intro a hna h1 ha c w
    have hak : a < m := by omega
    rw [retryAttempts, herrs a h1 (by omega)]
    dsimp only
    have hma : ¬ m ≤ a := by omega
    rw [dif_neg hma]
    rw [ih (a + 1) (by omega) (by omega) (by omega) (c + 1)
      (w ++ [backoffWait a])]
    have hspan : m - a = (m - (a + 1)) + 1 := by omega
    rw [hspan, List.range'_succ]
    simp [EvalOutcome.mk.injEq]
    omega

/-- The backoff waits starting at attempt 1 are 1000, 2000, 4000, ...
milliseconds. -/
theorem backoff_range (n : ℕ) :
    (List.range' 1 n).map backoffWait =
      (List.range n).map (fun i => 1000 * 2 ^ i) := by
  rw [List.range'_eq_map_range, List.map_map]
  apply List.map_congr_left
  intro i _
  show backoffWait (1 + i) = 1000 * 2 ^ i
  unfold backoffWait
  have h : 1 + i - 1 = i := by omega
  rw [h]

/-- A line of the failure message is a substring of the joined message. -/
theorem strIncl_of_mem_lines {specification screenshotPath : String} {t : ℚ}
    {r : LLMResponse} {l : String}
    (h : l ∈ vibeFailureLines specification screenshotPath t r) :
    StrIncl l (vibeFailureMessage specification screenshotPath t r) :=
  strIncl_joinWith h

/-! ## Claim theorems -/

/-- C1: the `vibeCheck` decision gate passes, returning the original
subject unchanged for chaining, exactly when the verdict is `yes` and the
confidence reaches the effective threshold; in every other case it throws a
failure message containing the specification text, the rendered confidence
and threshold, the reasoning, the fail reason when present (non-empty), the
comma-joined suggestions when present (non-empty), and the screenshot
path. -/
theorem decision_gate_spec {α : Type} (subject : α)
    (specification screenshotPath : String) (t : ℚ) (r : LLMResponse) :
    (vibeCheckGate subject specification screenshotPath t r = .ok subject ↔
      (r.verdict = "yes" ∧ t ≤ r.confidence))
    ∧ (¬ (r.verdict = "yes" ∧ t ≤ r.confidence) →
        vibeCheckGate subject specification screenshotPath t r =
          .error (vibeFailureMessage specification screenshotPath t r)
        ∧ StrIncl specification
            (vibeFailureMessage specification screenshotPath t r)
        ∧ StrIncl (toFixed2 r.confidence)
            (vibeFailureMessage specification screenshotPath t r)
        ∧ StrIncl (Json.numRender t)
            (vibeFailureMessage specification screenshotPath t r)
        ∧ (r.reasoning ≠ "" → StrIncl r.reasoning
            (vibeFailureMessage specification screenshotPath t r))
        ∧ (∀ fr, r.failReason = some fr → fr ≠ "" → StrIncl fr
            (vibeFailureMessage specification screenshotPath t r))
        ∧ (∀ sl, r.suggestions = some sl → sl ≠ [] →
            StrIncl (joinWith ", " sl)
              (vibeFailureMessage specification screenshotPath t r))
        ∧ StrIncl screenshotPath
            (vibeFailureMessage specification screenshotPath t r)) := by
  constructor
  · unfold vibeCheckGate
    by_cases hc : r.verdict = "yes" ∧ t ≤ r.confidence
    · simp [hc]
    · simp [hc]
  · intro hc
    have hgate : vibeCheckGate subject specification screenshotPath t r =
        .error (vibeFailureMessage specification screenshotPath t r) := by
      unfold vibeCheckGate
      rw [if_neg hc]
    refine ⟨hgate, ?_, ?_, ?_, ?_, ?_, ?_, ?_⟩
    · -- the specification text sits inside its quoted line
      refine (strIncl_append_mid "Specification: \"" specification
        "\"").trans (strIncl_of_mem_lines ?_)
      unfold vibeFailureLines
      refine List.mem_filter.mpr ⟨?_, ?_⟩
      · simp
      · rw [bne_iff_ne]
        exact ne_append_right _ (by decide)
    · -- the rendered confidence sits inside the confidence line
      have hmem : ("Confidence: " ++ toFixed2 r.confidence ++
          " (threshold: " ++ Json.numRender t ++ ")") ∈
          vibeFailureLines specification screenshotPath t r := by
        unfold vibeFailureLines
        refine List.mem_filter.mpr ⟨?_, ?_⟩
        · simp
        · rw [bne_iff_ne]
          exact ne_append_right _ (by decide)
      exact (((((strIncl_refl (toFixed2 r.confidence)).appendLeft
        "Confidence: ").appendRight " (threshold: ").appendRight
        (Json.numRender t)).appendRight ")").trans
        (strIncl_of_mem_lines hmem)
    · -- the rendered threshold sits inside the confidence line
      have hmem : ("Confidence: " ++ toFixed2 r.confidence ++
          " (threshold: " ++ Json.numRender t ++ ")") ∈
          vibeFailureLines specification screenshotPath t r := by
        unfold vibeFailureLines
        refine List.mem_filter.mpr ⟨?_, ?_⟩
        · simp
        · rw [bne_iff_ne]
          exact ne_append_right _ (by decide)
      exact (((strIncl_refl (Json.numRender t)).appendLeft
        ("Confidence: " ++ toFixed2 r.confidence ++
          " (threshold: ")).appendRight ")").trans
        (strIncl_of_mem_lines hmem)
    · -- the reasoning sits inside the reasoning line
      intro hr
      have hmem : ("Reasoning: " ++
          (if r.reasoning = "" then "No reasoning provided"
            else r.reasoning)) ∈
          vibeFailureLines specification screenshotPath t r := by
        unfold vibeFailureLines
        refine List.mem_filter.mpr ⟨?_, ?_⟩
        · simp
        · rw [bne_iff_ne]
          exact ne_append_left _ (by decide)
      have hsub : StrIncl r.reasoning ("Reasoning: " ++
          (if r.reasoning = "" then "No reasoning provided"
            else r.reasoning)) := by
        rw [if_neg hr]
        exact (strIncl_refl _).appendLeft _
      exact hsub.trans (strIncl_of_mem_lines hmem)
    · -- the fail reason sits inside its line when present and non-empty
      intro fr hfr hfrne
      refine StrIncl.trans ((strIncl_refl fr).appendLeft "Fail reason: ")
        (strIncl_of_mem_lines ?_)
      unfold vibeFailureLines
      rw [hfr]
      refine List.mem_filter.mpr ⟨?_, ?_⟩
      · simp [if_neg hfrne]
      · rw [bne_iff_ne]
        exact ne_append_left _ (by decide)
    · -- the joined suggestions sit inside their line when non-empty
      intro sl hsl hslne
      refine StrIncl.trans
        ((strIncl_refl (joinWith ", " sl)).appendLeft "Suggestions: ")
        (strIncl_of_mem_lines ?_)
      unfold vibeFailureLines
      rw [hsl]
      have hlen : 0 < sl.length := List.length_pos.mpr hslne
      refine List.mem_filter.mpr ⟨?_, ?_⟩
      · simp [if_pos hlen]
      · rw [bne_iff_ne]
        exact ne_append_left _ (by decide)
    · -- the screenshot path sits inside the last line
      refine StrIncl.trans
        ((strIncl_refl screenshotPath).appendLeft "Screenshot path: ")
        (strIncl_of_mem_lines ?_)
      unfold vibeFailureLines
      refine List.mem_filter.mpr ⟨?_, ?_⟩
      · simp
      · rw [bne_iff_ne]
        exact ne_append_left _ (by decide)

/-- Concrete run of the decision gate on a failing result, with the
containment facts instantiated. -/
theorem decision_gate_spec_witness :
    vibeCheckGate (0 : ℕ) "Blue button" "shots/a.png" (4/5)
      ⟨1/2, "text off", "no", some "wrong color", some ["fix a", "fix b"],
       none⟩ =
      .error (vibeFailureMessage "Blue button" "shots/a.png" (4/5)
        ⟨1/2, "text off", "no", some "wrong color", some ["fix a", "fix b"],
         none⟩)
    ∧ StrIncl "Blue button" (vibeFailureMessage "Blue button" "shots/a.png"
        (4/5) ⟨1/2, "text off", "no", some "wrong color",
          some ["fix a", "fix b"], none⟩)
    ∧ StrIncl "wrong color" (vibeFailureMessage "Blue button" "shots/a.png"
        (4/5) ⟨1/2, "text off", "no", some "wrong color",
          some ["fix a", "fix b"], none⟩)
    ∧ StrIncl (joinWith ", " ["fix a", "fix b"])
        (vibeFailureMessage "Blue button" "shots/a.png" (4/5)
          ⟨1/2, "text off", "no", some "wrong color",
            some ["fix a", "fix b"], none⟩)
    ∧ StrIncl "shots/a.png" (vibeFailureMessage "Blue button" "shots/a.png"
        (4/5) ⟨1/2, "text off", "no", some "wrong color",
          some ["fix a", "fix b"], none⟩) := by
  have h := (decision_gate_spec (0 : ℕ) "Blue button" "shots/a.png" (4/5)
    ⟨1/2, "text off", "no", some "wrong color", some ["fix a", "fix b"],
     none⟩).2 (by decide)
  exact ⟨h.1, h.2.1, h.2.2.2.2.2.1 "wrong color" rfl (by decide),
    h.2.2.2.2.2.2.1 ["fix a", "fix b"] rfl (by decide), h.2.2.2.2.2.2.2⟩

/-- C2: for `maxRetries = m ≥ 1`, when the provider's internal evaluation
throws on the first `k - 1` attempts and succeeds on attempt `k ≤ m`, the
runner returns that success having invoked the provider exactly `k` times
with `k - 1` backoff waits of `1000 * 2 ^ (attempt - 1)` milliseconds
(1s, 2s, 4s, ..., none before attempt 1); and when every attempt throws,
the runner invokes the provider exactly `m` times and rethrows the last
attempt's error unchanged. -/
theorem retry_runner_spec :
    (∀ (internal : ℕ → Except String LLMResponse) (m k : ℕ)
      (v : LLMResponse) (p : String) (d : ℕ),
      1 ≤ k → k ≤ m →
      (∀ i, 1 ≤ i → i < k → ∃ e, internal i = Except.error e) →
      internal k = .ok v →
      evaluateScreenshot false true p internal (some m) d =
        ⟨.ok v, k, (List.range (k - 1)).map (fun i => 1000 * 2 ^ i)⟩)
    ∧ (∀ (internal : ℕ → Except String LLMResponse) (m : ℕ)
      (errs : ℕ → String) (p : String) (d : ℕ),
      1 ≤ m →
      (∀ i, 1 ≤ i → i ≤ m → internal i = Except.error (errs i)) →
      evaluateScreenshot false true p internal (some m) d =
        ⟨.error (errs m), m,
         (List.range (m - 1)).map (fun i => 1000 * 2 ^ i)⟩) := by
  constructor
  · intro f m k v p d hk hkm hfail hsucc
    unfold evaluateScreenshot
    simp only [Bool.not_false, Bool.not_true, Bool.and_false, Option.getD_some]
    rw [if_neg (by simp)]
    rw [if_neg (by omega : ¬ m = 0)]
    rw [retryAttempts_reaches_success f m k v hkm hsucc 1 hk hfail 0 []]
    rw [← backoff_range (k - 1)]
    simp [EvalOutcome.mk.injEq]
    omega
  · intro f m errs p d hm hfail
    unfold evaluateScreenshot
    simp only [Bool.not_false, Bool.not_true, Bool.and_false, Option.getD_some]
    rw [if_neg (by simp)]
    rw [if_neg (by omega : ¬ m = 0)]
    rw [retryAttempts_exhausts f m errs hfail 1 le_rfl hm 0 []]
    rw [← backoff_range (m - 1)]
    simp [EvalOutcome.mk.injEq]
    omega

/-- A provider model that fails its first two attempts and then succeeds. -/
def flakyInternal : ℕ → Except String LLMResponse := fun i =>
  if i < 3 then .error ("transport error " ++ toString i)
  else .ok ⟨1, "fine", "yes", none, none, none⟩

/-- A provider model that fails every attempt. -/
def failingInternal : ℕ → Except String LLMResponse := fun i =>
  .error ("transport error " ++ toString i)

/-- Concrete runs of the retry loop: success on the third of four allowed
attempts, and exhaustion of three attempts. -/
theorem retry_runner_spec_witness :
    evaluateScreenshot false true "shot.png" flakyInternal (some 4) 3 =
      ⟨.ok ⟨1, "fine", "yes", none, none, none⟩, 3, [1000, 2000]⟩
    ∧ evaluateScreenshot false true "shot.png" failingInternal (some 3) 3 =
      ⟨.error "transport error 3", 3, [1000, 2000]⟩ := by
  constructor
  · have h := retry_runner_spec.1 flakyInternal 4 3
      ⟨1, "fine", "yes", none, none, none⟩ "shot.png" 3 (by decide)
      (by decide)
      (fun i h1 h2 => ⟨"transport error " ++ toString i, by
        simp only [flakyInternal]
        rw [if_pos h2]⟩)
      rfl
    rw [h]
    rfl
  · have h := retry_runner_spec.2 failingInternal 3
      (fun i => "transport error " ++ toString i) "shot.png" 3 (by decide)
      (fun i h1 h2 => rfl)
    rw [h]
    rfl

/-- C5: in a standalone Node context, an evaluation whose screenshot file
does not exist throws the artifact error before the retry loop starts: the
provider-specific call never runs (zero invocations) and no backoff wait is
taken, so the missing artifact is never retried. -/
theorem missing_artifact_spec (screenshotPath : String)
    (internal : ℕ → Except String LLMResponse)
    (optionsMaxRetries : Option ℕ) (defaultMaxRetries : ℕ) :
    evaluateScreenshot false false screenshotPath internal optionsMaxRetries
      defaultMaxRetries =
      ⟨.error ("Screenshot does not exist at path: " ++ screenshotPath), 0,
       []⟩ :=
  rfl

/-- C6 counterexample: a transport error that survives the retry loop does
NOT reach the external caller — the `evaluateScreenshotWithLLM` task
catches it and returns an ordinary result object in its place. -/
theorem task_swallows_error_counterexample :
    evaluateScreenshotWithLLMTask true "cypress/screenshots/a.png"
      (.error "API request failed with status 500") =
      .ok ⟨0, "API request failed with status 500", "no",
           some "Error communicating with LLM service", none, none⟩
    ∧ evaluateScreenshotWithLLMTask true "cypress/screenshots/a.png"
      (.error "API request failed with status 500") ≠
      .error "API request failed with status 500" := by
  exact ⟨rfl, by decide⟩

/-- C6 (amended): an error still failing after the retry loop is rethrown
by the runner unchanged (the last attempt's error) and passes through the
dispatch service unchanged, but the Cypress task entry point catches it and
converts it into a zero-confidence `no` result whose `failReason` is
`Error communicating with LLM service` and whose reasoning carries the
error message. -/
theorem error_propagation_spec :
    (∀ (internal : ℕ → Except String LLMResponse) (m : ℕ)
      (errs : ℕ → String) (p : String) (d : ℕ),
      1 ≤ m →
      (∀ i, 1 ≤ i → i ≤ m → internal i = Except.error (errs i)) →
      (evaluateScreenshot false true p internal (some m) d).result =
        .error (errs m))
    ∧ (∀ (π : Type) (s : LLMService π)
      (run : π → Except String LLMResponse) (n : Option String) (p : π)
      (e : String),
      s.getProvider n = .ok p → run p = .error e →
      s.evaluateScreenshot run n = .error e)
    ∧ (∀ (path e : String),
      evaluateScreenshotWithLLMTask true path (.error e) =
        .ok ⟨0, e, "no", some "Error communicating with LLM service", none,
             none⟩) := by
  refine ⟨?_, ?_, ?_⟩
  · intro f m errs p d hm hfail
    unfold evaluateScreenshot
    simp only [Bool.not_false, Bool.not_true, Bool.and_false, Option.getD_some]
    rw [if_neg (by simp)]
    rw [if_neg (by omega : ¬ m = 0)]
    rw [retryAttempts_exhausts f m errs hfail 1 le_rfl hm 0 []]
  · intro π s run n p e hget hrun
    unfold LLMService.evaluateScreenshot
    rw [hget]
    exact hrun
  · intro path e
    rfl

/-- Concrete runs of the three propagation stages. -/
theorem error_propagation_spec_witness :
    (evaluateScreenshot false true "shot.png" failingInternal (some 2)
      3).result = .error "transport error 2"
    ∧ (LLMService.evaluateScreenshot
        ⟨[("openai", 7)], some "openai"⟩
        (fun _ => .error "transport error 2") none : Except String LLMResponse) =
      .error "transport error 2"
    ∧ evaluateScreenshotWithLLMTask true "shot.png"
        (.error "transport error 2") =
      .ok ⟨0, "transport error 2", "no",
           some "Error communicating with LLM service", none, none⟩ := by
  refine ⟨?_, ?_, ?_⟩
  · exact error_propagation_spec.1 failingInternal 2
      (fun i => "transport error " ++ toString i) "shot.png" 3 (by decide)
      (fun i h1 h2 => rfl)
  · exact error_propagation_spec.2.1 ℕ ⟨[("openai", 7)], some "openai"⟩
      (fun _ => .error "transport error 2") none 7 "transport error 2" rfl
      rfl
  · exact error_propagation_spec.2.2 "shot.png" "transport error 2"

/-- C7: the first registered provider becomes the default automatically;
an explicit `makeDefault` on a later registration overrides it; resolving
an unregistered name, or resolving with no name when nothing is registered,
fails with a not-found error; and evaluating with an explicit provider name
dispatches to that provider. -/
theorem registry_spec (π : Type) (a b : π)
    (run : π → Except String LLMResponse) :
    ((({} : LLMService π).registerProvider "A" a false).registerProvider
        "B" b false).getProvider none = .ok a
    ∧ ((({} : LLMService π).registerProvider "A" a false).registerProvider
        "B" b false).evaluateScreenshot run (some "B") = run b
    ∧ ((({} : LLMService π).registerProvider "A" a false).registerProvider
        "B" b true).getProvider none = .ok b
    ∧ ((({} : LLMService π).registerProvider "A" a false).registerProvider
        "B" b false).getProvider (some "C") =
      .error "Provider \"C\" is not registered"
    ∧ ({} : LLMService π).getProvider none =
      .error "No provider specified and no default provider is set" :=
  ⟨rfl, rfl, rfl, rfl, rfl⟩

/-- C8 counterexample: a reply with empty text still yields a result, and
with `includeRawResponse` requested its `rawResponse` is present but
empty. -/
theorem raw_response_empty_counterexample :
    parsedLLMResponse "" true =
      .ok ⟨0, "Error parsing response: ", "no", none, none, some ""⟩
    ∧ (⟨0, "Error parsing response: ", "no", none, none,
        some ""⟩ : LLMResponse).rawResponse = some "" := by
  exact ⟨rfl, rfl⟩

/-- C8 (amended): a successful evaluation of either provider carries
`rawResponse` exactly when `includeRawResponse` was explicitly true for
that call, and then `rawResponse` is the payload that provider attaches —
the full parsed response body for the Anthropic provider, and for the
OpenAI provider the raw reply text itself, hence non-empty there exactly
when the reply text is. -/
theorem raw_response_spec :
    (∀ (ρ : Type) (content : String) (includeRawResponse : Bool) (raw : ρ)
      (r : ProviderResult ρ),
      normalizedResult content includeRawResponse raw = .ok r →
      (r.rawResponse ≠ none ↔ includeRawResponse = true)
      ∧ r.rawResponse = (if includeRawResponse then some raw else none))
    ∧ (∀ (content : String) (includeRawResponse : Bool) (r : LLMResponse),
      parsedLLMResponse content includeRawResponse = .ok r →
      r.rawResponse =
        (if includeRawResponse then some content else none)) := by
  constructor
  · intro ρ content includeRawResponse raw r
    unfold normalizedResult
    cases resultJsonOf content with
    | obj fields =>
      dsimp only
      by_cases hc : hasField fields "confidence"
      · rw [if_pos hc]
        intro h
        rw [Except.ok.injEq] at h
        subst h
        cases includeRawResponse <;> simp
      · rw [if_neg hc]
        intro h
        rw [Except.ok.injEq] at h
        subst h
        cases includeRawResponse <;> simp
    | arr elems =>
      dsimp only
      intro h
      rw [Except.ok.injEq] at h
      subst h
      cases includeRawResponse <;> simp
    | null =>
      dsimp only
      intro h
      exact Except.noConfusion h
    | bool bv =>
      dsimp only
      intro h
      exact Except.noConfusion h
    | num q =>
      dsimp only
      intro h
      exact Except.noConfusion h
    | str s =>
      dsimp only
      intro h
      exact Except.noConfusion h
  · intro content includeRawResponse r
    unfold parsedLLMResponse
    cases resultJsonOf content with
    | obj fields =>
      dsimp only
      by_cases hc : hasField fields "confidence"
      · rw [if_pos hc]
        intro h
        rw [Except.ok.injEq] at h
        subst h
        cases includeRawResponse <;> simp
      · rw [if_neg hc]
        intro h
        rw [Except.ok.injEq] at h
        subst h
        cases includeRawResponse <;> simp
    | arr elems =>
      dsimp only
      intro h
      rw [Except.ok.injEq] at h
      subst h
      cases includeRawResponse <;> simp
    | null =>
      dsimp only
      intro h
      exact Except.noConfusion h
    | bool bv =>
      dsimp only
      intro h
      exact Except.noConfusion h
    | num q =>
      dsimp only
      intro h
      exact Except.noConfusion h
    | str s =>
      dsimp only
      intro h
      exact Except.noConfusion h

/-- Concrete runs: the Anthropic-style call attaching the parsed response
body, and the OpenAI-style call whose payload is the reply text, with the
flag on and off. -/
theorem raw_response_spec_witness :
    ((⟨9/10, "ok", "yes",
        some (JsonValue.obj [("id", JsonValue.str "msg_1")])⟩ :
      ProviderResult JsonValue).rawResponse ≠ none ↔ true = true)
    ∧ (⟨9/10, "ok", "yes",
        some (JsonValue.obj [("id", JsonValue.str "msg_1")])⟩ :
      ProviderResult JsonValue).rawResponse =
      (if true then some (JsonValue.obj [("id", JsonValue.str "msg_1")])
       else none)
    ∧ (⟨9/10, "ok", "yes", none, none, some
        "\x7b\"confidence\":0.9,\"verdict\":\"yes\",\"reasoning\":\"ok\"\x7d"⟩ :
      LLMResponse).rawResponse =
      (if true then some
        "\x7b\"confidence\":0.9,\"verdict\":\"yes\",\"reasoning\":\"ok\"\x7d"
       else none)
    ∧ (⟨9/10, "ok", "yes", none, none, none⟩ :
      LLMResponse).rawResponse =
      (if false then some
        "\x7b\"confidence\":0.9,\"verdict\":\"yes\",\"reasoning\":\"ok\"\x7d"
       else none) := by
  refine ⟨?_, ?_, ?_, ?_⟩
  · exact (raw_response_spec.1 JsonValue
      "\x7b\"confidence\":0.9,\"verdict\":\"yes\",\"reasoning\":\"ok\"\x7d"
      true (JsonValue.obj [("id", JsonValue.str "msg_1")])
      ⟨9/10, "ok", "yes",
        some (JsonValue.obj [("id", JsonValue.str "msg_1")])⟩
      (by with_unfolding_all rfl)).1
  · exact (raw_response_spec.1 JsonValue
      "\x7b\"confidence\":0.9,\"verdict\":\"yes\",\"reasoning\":\"ok\"\x7d"
      true (JsonValue.obj [("id", JsonValue.str "msg_1")])
      ⟨9/10, "ok", "yes",
        some (JsonValue.obj [("id", JsonValue.str "msg_1")])⟩
      (by with_unfolding_all rfl)).2
  · exact raw_response_spec.2
      "\x7b\"confidence\":0.9,\"verdict\":\"yes\",\"reasoning\":\"ok\"\x7d"
      true ⟨9/10, "ok", "yes", none, none, some
        "\x7b\"confidence\":0.9,\"verdict\":\"yes\",\"reasoning\":\"ok\"\x7d"⟩
      (by with_unfolding_all rfl)
  · exact raw_response_spec.2
      "\x7b\"confidence\":0.9,\"verdict\":\"yes\",\"reasoning\":\"ok\"\x7d"
      false ⟨9/10, "ok", "yes", none, none, none⟩
      (by with_unfolding_all rfl)

/-- The reply of the spec's malformed-JSON example: prose on both sides of
a single JSON object. -/
def exampleReply : String :=
  "blah \x7b\"confidence\":0.9,\"verdict\":\"yes\",\"reasoning\":\"ok\"\x7d blah"

/-- A reply whose trailing prose contains one more closing brace. -/
def trailingBraceReply : String :=
  "blah \x7b\"confidence\":0.9,\"verdict\":\"yes\",\"reasoning\":\"ok\"\x7d bl\x7dah"

/-- The JSON object sitting inside both replies above. -/
def exampleObject : String :=
  "\x7b\"confidence\":0.9,\"verdict\":\"yes\",\"reasoning\":\"ok\"\x7d"

/-- C3 counterexample: on a reply whose prose after the JSON object
contains one more closing brace, the provider does not parse the first
balanced `\x7b...\x7d` substring: that substring parses to confidence 0.9
with verdict `yes`, while the greedy first-to-last-brace extraction the
code performs makes parsing fail and the call produces the zero-confidence
fallback instead. -/
theorem parse_extraction_counterexample :
    firstBalancedBrace trailingBraceReply = some exampleObject
    ∧ parsedLLMResponse exampleObject false =
      .ok ⟨9/10, "ok", "yes", none, none, none⟩
    ∧ matchedJsonText trailingBraceReply = some
      "\x7b\"confidence\":0.9,\"verdict\":\"yes\",\"reasoning\":\"ok\"\x7d bl\x7d"
    ∧ parsedLLMResponse trailingBraceReply false =
      .ok ⟨0, "Error parsing response: " ++ trailingBraceReply, "no", none,
           none, none⟩ :=
  ⟨by decide, by with_unfolding_all rfl, by decide, by with_unfolding_all rfl⟩

/-- C3 (amended): the provider extracts the greedy first-brace-to-last-
brace substring of the reply and parses that; on the spec's example (prose
around one JSON object with no later closing brace) this is the JSON
object, yielding verdict `yes` with confidence 0.9; and whenever nothing
parses — neither the extracted substring nor, failing a match, the whole
reply — the provider returns, without throwing, a zero-confidence `no`
result carrying the raw reply text in its reasoning. -/
theorem parse_stage_spec :
    parsedLLMResponse exampleReply false =
      .ok ⟨9/10, "ok", "yes", none, none, none⟩
    ∧ (∀ (content : String) (includeRawResponse : Bool),
      parsedCandidate content = none →
      parsedLLMResponse content includeRawResponse =
        .ok ⟨0, "Error parsing response: " ++ content, "no", none, none,
             if includeRawResponse then some content else none⟩) := by
  constructor
  · with_unfolding_all rfl
  · intro content raw h
    have hne : ("Error parsing response: " ++ content) ≠ "" :=
      ne_append_left content (by decide)
    unfold parsedLLMResponse resultJsonOf
    rw [h, Option.getD_none]
    unfold parseFallback
    dsimp only
    rw [if_pos (by rfl)]
    simp [fieldOrDefault, jsTruthy, jsToString, JsonValue.asNum, List.lookup,
      hne]

/-- Concrete run of the fallback branch on a reply with no JSON at all. -/
theorem parse_stage_spec_witness :
    parsedLLMResponse "no json here" true =
      .ok ⟨0, "Error parsing response: no json here", "no", none, none,
           some "no json here"⟩ := by
  have h := parse_stage_spec.2 "no json here" true
    (Option.isNone_iff_eq_none.mp rfl)
  rw [h]
  rfl

/-- C4: when the parsed reply object lacks a `confidence` field the
provider does not throw: it returns verdict `no`, confidence 0, and a
reasoning string reporting the invalid response format (with the offending
object serialized into it). -/
theorem missing_confidence_spec (content : String) (includeRawResponse : Bool)
    (fields : List (String × JsonValue))
    (hobj : resultJsonOf content = .obj fields)
    (hno : hasField fields "confidence" = false) :
    parsedLLMResponse content includeRawResponse =
      .ok ⟨0, "Invalid response format: " ++ Json.stringify (.obj fields),
           "no", none, none,
           if includeRawResponse then some content else none⟩ := by
  unfold parsedLLMResponse
  rw [hobj]
  dsimp only
  rw [if_neg (by simp [hno])]

/-- Concrete run of the spec's missing-field example. -/
theorem missing_confidence_spec_witness :
    parsedLLMResponse "\x7b\"reasoning\":\"nothing\"\x7d" false =
      .ok ⟨0, "Invalid response format: " ++
           Json.stringify (.obj [("reasoning", .str "nothing")]), "no",
           none, none, none⟩ :=
  missing_confidence_spec "\x7b\"reasoning\":\"nothing\"\x7d" false
    [("reasoning", .str "nothing")] (by with_unfolding_all rfl) rfl

/-- The runtime config after
`cy.configureVibes(\x7bconfidenceThreshold: 0.95\x7d)` starting from the
defaults. -/
def afterConfigure95 : VibeConfig :=
  configureVibes loadConfigPlain { confidenceThreshold := some (19/20) }

/-- C9 (the code evaluated at the failing input): `configureVibes` writes
the requested threshold as a flat top-level key, the nested `evaluation`
block that `vibeCheck` reads keeps its default 0.8, so a later `vibeCheck`
with no call-site threshold is gated against 0.8 — a 0.9-confidence `yes`
result passes although the configured 0.95 should reject it; the merged
threshold does always fall back to 0.8 when no layer supplies one. -/
theorem configure_vibes_ineffective :
    afterConfigure95.topConfidenceThreshold = some (19/20)
    ∧ afterConfigure95.evaluation.confidenceThreshold = 8/10
    ∧ vibeCheckMergedThreshold afterConfigure95 {} = 8/10
    ∧ vibeCheckGate (0 : ℕ) "spec" "p.png"
        (vibeCheckMergedThreshold afterConfigure95 {})
        ⟨9/10, "looks right", "yes", none, none, none⟩ = .ok 0
    ∧ ¬ ((19/20 : ℚ) ≤ 9/10)
    ∧ vibeCheckMergedThreshold loadConfigPlain {} = 8/10 := by
  refine ⟨rfl, rfl, rfl, ?_, by norm_num, rfl⟩
  unfold vibeCheckGate
  rw [if_pos]
  constructor
  · rfl
  · show vibeCheckMergedThreshold afterConfigure95 {} ≤ (9/10 : ℚ)
    unfold vibeCheckMergedThreshold afterConfigure95 configureVibes
      loadConfigPlain defaultVibeConfig defaultEvaluation
    norm_num

/-- C10: every outgoing request body of either provider carries
`temperature` 0.2 and `max_tokens` 1500 unless those keys are overridden by
`options.modelParameters`, which is spread last into the body; and the
config-level `temperature`, defaulted to 0.3 by `validateConfig` at
construction, is never read by either request builder, so setting it
cannot affect an evaluation. -/
theorem request_parameters_spec (config : LLMProviderConfig)
    (modelParameters : List (String × JsonValue))
    (systemPrompt base64Image : String) (t : Option ℚ)
    (env : String → Option String) :
    (openAIRequestBody config modelParameters systemPrompt
        base64Image).lookup "temperature" =
      some ((modelParameters.lookup "temperature").getD (.num (2/10)))
    ∧ (openAIRequestBody config modelParameters systemPrompt
        base64Image).lookup "max_tokens" =
      some ((modelParameters.lookup "max_tokens").getD (.num 1500))
    ∧ (anthropicRequestBody config modelParameters systemPrompt
        base64Image).lookup "temperature" =
      some ((modelParameters.lookup "temperature").getD (.num (2/10)))
    ∧ (anthropicRequestBody config modelParameters systemPrompt
        base64Image).lookup "max_tokens" =
      some ((modelParameters.lookup "max_tokens").getD (.num 1500))
    ∧ openAIRequestBody { config with temperature := t } modelParameters
        systemPrompt base64Image =
      openAIRequestBody config modelParameters systemPrompt base64Image
    ∧ anthropicRequestBody { config with temperature := t } modelParameters
        systemPrompt base64Image =
      anthropicRequestBody config modelParameters systemPrompt base64Image
    ∧ (validateConfig env { config with temperature := none }).temperature =
      some (3/10) := by
  refine ⟨?_, ?_, ?_, ?_, rfl, rfl, rfl⟩ <;>
    simp [openAIRequestBody, anthropicRequestBody, spreadMerge, List.lookup]

end VibeCheck
